import Mathlib

/-!
Shallow embedding of the message-submission core of the Converso chatbot
(src/frontend_react_chatbot/src/App.js).

JavaScript strings are modelled as `List Char`.  The spec names the two
message roles `user` and `assistant`; the code spells the latter as the
string literal `"ai"`, which the embedding keeps verbatim.
-/

/-- Strings of the program are modelled as lists of characters. -/
abbrev Str := List Char

/-- Embedding of `String.prototype.trim`: drop leading and trailing
whitespace (modelled with `Char.isWhitespace`). -/
def trim (s : Str) : Str :=
  ((s.dropWhile Char.isWhitespace).reverse.dropWhile Char.isWhitespace).reverse

/-- Embedding of `String.prototype.toLowerCase`. -/
def toLowerCase (s : Str) : Str := s.map Char.toLower

/-- Embedding of `String.prototype.includes`: substring containment. -/
def includes (s pat : Str) : Bool := decide (pat <:+: s)

/-- Embedding of `String.prototype.endsWith`. -/
def endsWith (s pat : Str) : Bool := decide (pat <:+ s)

/-- the greeting reply of rule 1 of `getFakeAIReply` (App.js line 64). -/
def greetingReply : Str := "Hi there! 😊 How can I help you?".toList

/-- the weather reply of rule 2 of `getFakeAIReply` (App.js line 67). -/
def weatherReply : Str := "I\x27m just a demo AI, but it\x27s always sunny in the cloud!".toList

/-- the question reply of rule 3 of `getFakeAIReply` (App.js line 70). -/
def questionReply : Str := "That\x27s a great question! Let me look into it for you. (This is a demo reply)".toList

/-- Embedding of `getFakeAIReply` (App.js lines 61-74): an ordered rule
table, first match wins, followed by an echo fallback. -/
def getFakeAIReply (userInput : Str) : Str :=
  if includes (toLowerCase userInput) "hello".toList || includes (toLowerCase userInput) "hi".toList then
    greetingReply
  else if includes (toLowerCase userInput) "weather".toList then
    weatherReply
  else if endsWith userInput "?".toList then
    questionReply
  else
    "You said: \"".toList ++ userInput ++ "\". How else can I assist?".toList

/-- a chat message, `{role: "user"|"ai", content: string}` (App.js line 14). -/
structure Message where
  role : Str
  content : Str
deriving DecidableEq

/-- the seeded greeting content (App.js line 18). -/
def seededGreeting : Str :=
  "Hello! 👋 I am Converso, your AI chatbot. How can I help you today?".toList

/-- the initial `messages` state (App.js lines 15-20). -/
def initialMessages : List Message := [⟨"ai".toList, seededGreeting⟩]

/-- the React component state relevant to the submission lifecycle:
`messages` and `isLoading` (App.js lines 15-24). -/
structure ChatState where
  messages : List Message
  isLoading : Bool
deriving DecidableEq

/-- the state at initialization (App.js lines 15-24): the seeded greeting
message and `isLoading = false`. -/
def initState : ChatState := ⟨initialMessages, false⟩

/-- the two reasons `handleSendMsg` rejects a submission; the code signals
both by the early `return` on line 38, distinguished by which disjunct of
`!trimmedInput || isLoading` fired (the spec names them `EmptyInput` and
`AlreadyPending`). -/
inductive SubmitError where
  | EmptyInput
  | AlreadyPending
deriving DecidableEq

/-- Embedding of `handleSendMsg` (App.js lines 35-51) up to the scheduling
of the timeout: trims the input, rejects empty or already-loading
submissions without touching the state, otherwise appends the user message,
sets `isLoading`, and hands the captured `trimmedInput` (the closure state
of the scheduled timeout) back as the pending handle. -/
def handleSendMsg (s : ChatState) (input : Str) : Except SubmitError (ChatState × Str) :=
  let trimmedInput := trim input
  if trimmedInput.isEmpty then
    .error .EmptyInput
  else if s.isLoading then
    .error .AlreadyPending
  else
    .ok (⟨s.messages ++ [⟨"user".toList, trimmedInput⟩], true⟩, trimmedInput)

/-- the state after the `handleSendMsg` event: the new state on acceptance,
the old state unchanged on rejection (the early `return` performs no
`setState`). -/
def stateAfterSubmit (s : ChatState) (input : Str) : ChatState :=
  match handleSendMsg s input with
  | .ok (s', _) => s'
  | .error _ => s

/-- Embedding of the timeout body (App.js lines 46-50): append the fake AI
reply to the captured `trimmedInput` and clear `isLoading`. -/
def resolveReply (s : ChatState) (trimmedInput : Str) : ChatState :=
  ⟨s.messages ++ [⟨"ai".toList, getFakeAIReply trimmedInput⟩], false⟩

/-- Reachable states of the submission lifecycle, paired with the trimmed
text captured by the outstanding timeout (`none` when no timeout is
pending).  A timeout is scheduled exactly by an accepted submission and
fires exactly once. -/
inductive Reachable : ChatState → Option Str → Prop where
  | init : Reachable initState none
  | submit {s : ChatState} {input : Str} {s' : ChatState} {t : Str} :
      Reachable s none → handleSendMsg s input = .ok (s', t) → Reachable s' (some t)
  | resolve {s : ChatState} {t : Str} :
      Reachable s (some t) → Reachable (resolveReply s t) none

/-- the simulated latency in milliseconds (App.js line 50):
`1000 + Math.random() * 1200`, with the random draw modelled as a rational
`r` ranging over `[0, 1)`. -/
def simulatedDelayMs (r : ℚ) : ℚ := 1000 + r * 1200

/-- the 2049-character input used to probe the absence of a length cap. -/
def longInput : Str := List.replicate 2049 'a'

/-- Inversion of an accepted submission: `handleSendMsg` returns `ok` only
when the trimmed input is non-empty and the state is not loading, and then
the new state appends exactly the trimmed user message. -/
theorem handleSendMsg_ok_inversion {s : ChatState} {input : Str} {s' : ChatState} {t : Str}
    (h : handleSendMsg s input = .ok (s', t)) :
    t = trim input ∧ (trim input).isEmpty = false ∧ s.isLoading = false ∧
      s' = ⟨s.messages ++ [⟨"user".toList, trim input⟩], true⟩ := by
  unfold handleSendMsg at h
  by_cases h1 : (trim input).isEmpty
  · simp [h1] at h
  · by_cases h2 : s.isLoading
    · simp [h1, h2] at h
    · simp [h1, h2] at h
      exact ⟨h.2.symm, by simp [h1], by simp [h2], h.1.symm⟩

/-- Dropping a prefix by `dropWhile` leaves a suffix of the original list. -/
theorem dropWhile_suffix_exists (p : Char → Bool) (l : Str) :
    ∃ t, t ++ l.dropWhile p = l := by
  induction l with
  | nil => exact ⟨[], rfl⟩
  | cons a l ih =>
    by_cases h : p a = true
    · obtain ⟨t, ht⟩ := ih
      exact ⟨a :: t, by simp [List.dropWhile_cons, h, ht]⟩
    · exact ⟨[], by simp [List.dropWhile_cons, h]⟩

/-- the trimmed form of a string occurs inside the original string. -/
theorem trim_infix_self (s : Str) : ∃ l r, l ++ trim s ++ r = s := by
  obtain ⟨t1, h1⟩ := dropWhile_suffix_exists Char.isWhitespace s
  obtain ⟨t2, h2⟩ :=
    dropWhile_suffix_exists Char.isWhitespace (s.dropWhile Char.isWhitespace).reverse
  refine ⟨t1, t2.reverse, ?_⟩
  unfold trim
  have h3 : ((s.dropWhile Char.isWhitespace).reverse.dropWhile Char.isWhitespace).reverse
      ++ t2.reverse = s.dropWhile Char.isWhitespace := by
    rw [← List.reverse_append, h2, List.reverse_reverse]
  rw [List.append_assoc, h3, h1]

/-- a Bool-to-Prop bridge for the embedded `includes`. -/
theorem includes_eq_true {s pat : Str} : includes s pat = true ↔ pat <:+: s := by
  simp [includes]

/-- a Bool-to-Prop bridge for the embedded `endsWith`. -/
theorem endsWith_eq_true {s pat : Str} : endsWith s pat = true ↔ pat <:+ s := by
  simp [endsWith]

/-- C1: for every input whose trimmed form is non-empty, when the state is
idle, an accepted submit followed by its resolve appends exactly two
messages — first the user message with the trimmed content, then the AI
message with the resolver output — and clears `isLoading`, growing the
history by exactly 2. -/
theorem submit_then_resolve_appends_two (s : ChatState) (input : Str)
    (h1 : (trim input).isEmpty = false) (h2 : s.isLoading = false) :
    ∃ s', handleSendMsg s input = .ok (s', trim input) ∧
      (resolveReply s' (trim input)).messages =
        s.messages ++ [⟨"user".toList, trim input⟩,
          ⟨"ai".toList, getFakeAIReply (trim input)⟩] ∧
      (resolveReply s' (trim input)).isLoading = false ∧
      (resolveReply s' (trim input)).messages.length = s.messages.length + 2 := by
  refine ⟨⟨s.messages ++ [⟨"user".toList, trim input⟩], true⟩, ?_, ?_, rfl, ?_⟩
  · simp [handleSendMsg, h1, h2]
  · simp [resolveReply]
  · simp [resolveReply]

/-- Witness for C1 at the concrete input `"hello"` from the initial state. -/
theorem submit_then_resolve_appends_two_witness :
    ∃ s', handleSendMsg initState "hello".toList = .ok (s', trim "hello".toList) ∧
      (resolveReply s' (trim "hello".toList)).messages =
        initState.messages ++ [⟨"user".toList, trim "hello".toList⟩,
          ⟨"ai".toList, getFakeAIReply (trim "hello".toList)⟩] ∧
      (resolveReply s' (trim "hello".toList)).isLoading = false ∧
      (resolveReply s' (trim "hello".toList)).messages.length =
        initState.messages.length + 2 :=
  submit_then_resolve_appends_two initState "hello".toList (by decide) rfl

/-- C2: a submission whose trimmed input is empty is rejected with
`EmptyInput`, and a submission while loading is rejected with
`AlreadyPending`; in both cases the state is unchanged. -/
theorem handleSendMsg_rejects_without_change (s : ChatState) (input : Str) :
    ((trim input).isEmpty = true →
      handleSendMsg s input = .error .EmptyInput ∧ stateAfterSubmit s input = s) ∧
    ((trim input).isEmpty = false → s.isLoading = true →
      handleSendMsg s input = .error .AlreadyPending ∧ stateAfterSubmit s input = s) := by
  constructor
  · intro h
    have he : handleSendMsg s input = .error .EmptyInput := by simp [handleSendMsg, h]
    exact ⟨he, by simp [stateAfterSubmit, he]⟩
  · intro h h2
    have he : handleSendMsg s input = .error .AlreadyPending := by
      simp [handleSendMsg, h, h2]
    exact ⟨he, by simp [stateAfterSubmit, he]⟩

/-- Witness for C2: a whitespace-only input is rejected with `EmptyInput`
from the initial state, and `"hello"` is rejected with `AlreadyPending`
from a loading state; the state is unchanged both times. -/
theorem handleSendMsg_rejects_without_change_witness :
    (handleSendMsg initState "   ".toList = .error .EmptyInput ∧
      stateAfterSubmit initState "   ".toList = initState) ∧
    (handleSendMsg ⟨initialMessages, true⟩ "hello".toList = .error .AlreadyPending ∧
      stateAfterSubmit ⟨initialMessages, true⟩ "hello".toList = ⟨initialMessages, true⟩) :=
  ⟨(handleSendMsg_rejects_without_change initState ("   ".toList)).1 (by decide),
   (handleSendMsg_rejects_without_change ⟨initialMessages, true⟩ ("hello".toList)).2
     (by decide) rfl⟩

/-- C9: for every random draw `r` in `[0, 1)` the simulated delay
`1000 + r * 1200` lies in `[1000, 2200)` milliseconds. -/
theorem simulatedDelayMs_bounds (r : ℚ) (h0 : 0 ≤ r) (h1 : r < 1) :
    1000 ≤ simulatedDelayMs r ∧ simulatedDelayMs r < 2200 := by
  unfold simulatedDelayMs
  constructor <;> nlinarith

/-- Witness for C9 at the concrete draw `r = 1/2`. -/
theorem simulatedDelayMs_bounds_witness :
    1000 ≤ simulatedDelayMs (1/2) ∧ simulatedDelayMs (1/2) < 2200 :=
  simulatedDelayMs_bounds (1/2) (by norm_num) (by norm_num)

/-- C10: `getFakeAIReply` is total and never returns the empty string —
every branch, including the echo fallback, produces a non-empty reply. -/
theorem getFakeAIReply_nonempty (u : Str) : getFakeAIReply u ≠ [] := by
  unfold getFakeAIReply
  split
  · decide
  · split
    · decide
    · split
      · decide
      · simp

/-- Witness for C10 at the concrete input `"ok thanks"`. -/
theorem getFakeAIReply_nonempty_witness :
    getFakeAIReply "ok thanks".toList ≠ [] :=
  getFakeAIReply_nonempty ("ok thanks".toList)

/-- Counterexample for C4: on the exact input `"Is this real?"` the rule
table returns the greeting reply, not the question reply, because the
lowercased utterance `"is this real?"` contains `"hi"` (inside `"this"`),
so rule 1 fires before the question rule. -/
theorem getFakeAIReply_is_this_real_counterexample :
    getFakeAIReply "Is this real?".toList = greetingReply ∧
      greetingReply ≠ questionReply :=
  ⟨by decide, by decide⟩

/-- C4 (amended): `getFakeAIReply` applied to `"Is this real?"` returns the
greeting reply of rule 1, since the lowercased input contains the substring
`"hi"`. -/
theorem getFakeAIReply_is_this_real :
    getFakeAIReply "Is this real?".toList = greetingReply := by decide

/-- C3: the rule table of `getFakeAIReply` is evaluated in order with first
match winning: a lowercased input containing `"hello"` or `"hi"` gets the
greeting reply; otherwise one containing `"weather"` gets the weather reply
(even when it also ends with `"?"`); otherwise one ending with `"?"` gets
the question reply; otherwise the echo reply is returned, and it contains
the trimmed input as a literal substring. -/
theorem getFakeAIReply_rule_table (u : Str) :
    (("hello".toList <:+: toLowerCase u ∨ "hi".toList <:+: toLowerCase u) →
      getFakeAIReply u = greetingReply) ∧
    (¬("hello".toList <:+: toLowerCase u ∨ "hi".toList <:+: toLowerCase u) →
      "weather".toList <:+: toLowerCase u → getFakeAIReply u = weatherReply) ∧
    (¬("hello".toList <:+: toLowerCase u ∨ "hi".toList <:+: toLowerCase u) →
      ¬("weather".toList <:+: toLowerCase u) → "?".toList <:+ u →
      getFakeAIReply u = questionReply) ∧
    (¬("hello".toList <:+: toLowerCase u ∨ "hi".toList <:+: toLowerCase u) →
      ¬("weather".toList <:+: toLowerCase u) → ¬("?".toList <:+ u) →
      getFakeAIReply u =
        "You said: \"".toList ++ u ++ "\". How else can I assist?".toList ∧
      trim u <:+: getFakeAIReply u) := by
  refine ⟨?_, ?_, ?_, ?_⟩
  · intro h
    unfold getFakeAIReply
    rw [if_pos]
    simpa [includes_eq_true] using h
  · intro h1 h2
    unfold getFakeAIReply
    rw [if_neg, if_pos]
    · simpa [includes_eq_true] using h2
    · simpa [includes_eq_true] using h1
  · intro h1 h2 h3
    unfold getFakeAIReply
    rw [if_neg, if_neg, if_pos]
    · simpa [endsWith_eq_true] using h3
    · simpa [includes_eq_true] using h2
    · simpa [includes_eq_true] using h1
  · intro h1 h2 h3
    have hecho : getFakeAIReply u =
        "You said: \"".toList ++ u ++ "\". How else can I assist?".toList := by
      unfold getFakeAIReply
      rw [if_neg, if_neg, if_neg]
      · simpa [endsWith_eq_true] using h3
      · simpa [includes_eq_true] using h2
      · simpa [includes_eq_true] using h1
    refine ⟨hecho, ?_⟩
    obtain ⟨l, r, hlr⟩ := trim_infix_self u
    rw [hecho]
    refine ⟨"You said: \"".toList ++ l, r ++ "\". How else can I assist?".toList, ?_⟩
    have h4 : ("You said: \"".toList ++ l) ++ trim u ++
        (r ++ "\". How else can I assist?".toList) =
        "You said: \"".toList ++ (l ++ trim u ++ r) ++
          "\". How else can I assist?".toList := by
      simp [List.append_assoc]
    rw [h4, hlr]

/-- Witness for C3 at the concrete input `"ok thanks"`, which matches no
rule and falls through to the echo reply containing `"ok thanks"`. -/
theorem getFakeAIReply_rule_table_witness :
    getFakeAIReply "ok thanks".toList =
      "You said: \"".toList ++ "ok thanks".toList ++
        "\". How else can I assist?".toList ∧
    trim "ok thanks".toList <:+: getFakeAIReply "ok thanks".toList :=
  (getFakeAIReply_rule_table ("ok thanks".toList)).2.2.2
    (by decide) (by decide) (by decide)

/-- C5: in every reachable state, `isLoading` is true exactly when the most
recently appended message is an unanswered user message (the last message
of the history has role `"user"`). -/
theorem isLoading_iff_last_user (s : ChatState) (p : Option Str) (h : Reachable s p) :
    s.isLoading = true ↔
      ∃ m, s.messages.getLast? = some m ∧ m.role = "user".toList := by
  induction h with
  | init => simp [initState, initialMessages]
  | submit hre hok ih =>
    rename_i s input s' t
    obtain ⟨ht, h1, h2, hs'⟩ := handleSendMsg_ok_inversion hok
    subst hs'
    simp [List.getLast?_concat]
  | resolve hre ih =>
    simp [resolveReply, List.getLast?_concat]

/-- Witness for C5 at the initial state, where `isLoading` is false and the
only message is the seeded AI greeting. -/
theorem isLoading_iff_last_user_witness :
    initState.isLoading = true ↔
      ∃ m, initState.messages.getLast? = some m ∧ m.role = "user".toList :=
  isLoading_iff_last_user initState none Reachable.init

/-- C6: every message of every reachable history has role `"user"` or
`"ai"` (how the code spells the role the spec calls `assistant`), and both
operations only append — the previous history is an initial segment of the
new one, so the role and content of an existing message are never changed. -/
theorem roles_enumerated_and_append_only :
    (∀ (s : ChatState) (p : Option Str), Reachable s p →
      ∀ m ∈ s.messages, m.role = "user".toList ∨ m.role = "ai".toList) ∧
    (∀ (s : ChatState) (input : Str) (s' : ChatState) (t : Str),
      handleSendMsg s input = .ok (s', t) → s.messages <+: s'.messages) ∧
    (∀ (s : ChatState) (t : Str), s.messages <+: (resolveReply s t).messages) := by
  refine ⟨?_, ?_, ?_⟩
  · intro s p h
    induction h with
    | init =>
      intro m hm
      simp [initState, initialMessages] at hm
      subst hm
      right
      rfl
    | submit hre hok ih =>
      obtain ⟨ht, h1, h2, hs'⟩ := handleSendMsg_ok_inversion hok
      subst hs'
      intro m hm
      rcases List.mem_append.mp hm with hm | hm
      · exact ih m hm
      · left
        simp at hm
        subst hm
        rfl
    | resolve hre ih =>
      intro m hm
      rcases List.mem_append.mp hm with hm | hm
      · exact ih m hm
      · right
        simp at hm
        subst hm
        rfl
  · intro s input s' t hok
    obtain ⟨ht, h1, h2, hs'⟩ := handleSendMsg_ok_inversion hok
    subst hs'
    exact ⟨[⟨"user".toList, trim input⟩], rfl⟩
  · intro s t
    exact ⟨[⟨"ai".toList, getFakeAIReply t⟩], rfl⟩

/-- Witness for C6 at the initial state: the seeded greeting message has one
of the two enumerated roles. -/
theorem roles_enumerated_and_append_only_witness :
    (⟨"ai".toList, seededGreeting⟩ : Message).role = "user".toList ∨
      (⟨"ai".toList, seededGreeting⟩ : Message).role = "ai".toList :=
  roles_enumerated_and_append_only.1 initState none Reachable.init
    ⟨"ai".toList, seededGreeting⟩ (by simp [initState, initialMessages])

/-- C8: at initialization the state holds exactly the one seeded AI greeting
message with `isLoading = false`, and every reachable history is non-empty. -/
theorem initial_state_and_history_nonempty :
    initState.messages = [⟨"ai".toList, seededGreeting⟩] ∧
    initState.isLoading = false ∧
    (∀ (s : ChatState) (p : Option Str), Reachable s p → s.messages ≠ []) := by
  refine ⟨rfl, rfl, ?_⟩
  intro s p h
  induction h with
  | init => simp [initState, initialMessages]
  | submit hre hok ih =>
    obtain ⟨ht, h1, h2, hs'⟩ := handleSendMsg_ok_inversion hok
    subst hs'
    simp
  | resolve hre ih => simp [resolveReply]

/-- Witness for C8 at the initial state itself. -/
theorem initial_state_and_history_nonempty_witness :
    initState.messages ≠ [] :=
  initial_state_and_history_nonempty.2.2 initState none Reachable.init

/-- Counterexample for C7: `handleSendMsg` enforces no upper bound on the
content length — a 2049-character trimmed input is accepted and appended at
full length, exceeding the claimed 2048-character cap. -/
theorem submit_length_cap_counterexample :
    handleSendMsg initState longInput =
      .ok (⟨initialMessages ++ [⟨"user".toList, longInput⟩], true⟩, longInput) ∧
    2048 < longInput.length := by
  constructor
  · have hdrop : List.dropWhile Char.isWhitespace (List.replicate 2049 'a') =
        List.replicate 2049 'a' := by
      rw [show (2049 : Nat) = 2048 + 1 from rfl, List.replicate_succ,
        List.dropWhile_cons, if_neg (by decide)]
    have htrim : trim longInput = longInput := by
      unfold trim longInput
      rw [hdrop, List.reverse_replicate, hdrop, List.reverse_replicate]
    have hne : longInput.isEmpty = false := by
      unfold longInput
      rw [show (2049 : Nat) = 2048 + 1 from rfl, List.replicate_succ]
      rfl
    simp [handleSendMsg, htrim, hne, initState]
  · unfold longInput
    rw [List.length_replicate]
    omega

/-- C7 (amended): every accepted submission appends a user message whose
content is exactly the trimmed input, of length at least 1; no upper bound
is enforced by the submission logic. -/
theorem submit_appends_trimmed_content_unbounded (s : ChatState) (input : Str)
    (h1 : (trim input).isEmpty = false) (h2 : s.isLoading = false) :
    ∃ s', handleSendMsg s input = .ok (s', trim input) ∧
      s'.messages.getLast? = some ⟨"user".toList, trim input⟩ ∧
      1 ≤ (trim input).length := by
  refine ⟨⟨s.messages ++ [⟨"user".toList, trim input⟩], true⟩, ?_, ?_, ?_⟩
  · simp [handleSendMsg, h1, h2]
  · simp [List.getLast?_concat]
  · have hnil : trim input ≠ [] := by
      intro hn
      rw [hn] at h1
      simp at h1
    have hpos := List.length_pos.mpr hnil
    omega

/-- Witness for the amended C7 at the concrete input `"hello"` from the
initial state. -/
theorem submit_appends_trimmed_content_unbounded_witness :
    ∃ s', handleSendMsg initState "hello".toList = .ok (s', trim "hello".toList) ∧
      s'.messages.getLast? = some ⟨"user".toList, trim "hello".toList⟩ ∧
      1 ≤ (trim "hello".toList).length :=
  submit_appends_trimmed_content_unbounded initState "hello".toList (by decide) rfl

example : getFakeAIReply "hello".toList = greetingReply := by decide
example : getFakeAIReply "Is this real?".toList = greetingReply := by decide
example : getFakeAIReply "what\x27s the weather?".toList = weatherReply := by decide
example : getFakeAIReply "How are you".toList ≠ questionReply := by decide
example : getFakeAIReply "How are you?".toList = questionReply := by decide
example : trim "  ok thanks ".toList = "ok thanks".toList := by decide
example : handleSendMsg initState "".toList = .error .EmptyInput := rfl
